import Mathlib

/-!
# Autobot: debug-event log, time-travel reconstruction and A2UI extraction

Shallow embedding of the core of the `evaisse/autobot` repository:

* the debug-event data model (`packages/frontend/src/types/index.ts`),
* the event reducer and time-travel cursor (`packages/frontend/src/App.tsx`:
  `currentEvents`, `messages`, `addDebugEvent`, `handleSendMessage`),
* the persistence layer (`StorageService.saveConversation` / `getConversation`),
* the LLM chat turn with A2UI tool-call extraction (`LLMService.chat`),
* the backend configuration read endpoint (`GET /api/config` in
  `packages/backend/src/index.ts`).

External effects are made explicit: `uuidv4()` is modelled as a fresh-counter
supply of natural-number identifiers, `Date.now()` as an explicit timestamp
argument, `JSON.parse` as a parameter `parse : String → Option A2UIArgs`
(the JSON library is a collaborator, not part of the repository), and the
remote chat-completion call as an `Except String ChatCompletion` argument
(success with a parsed body, or failure covering network errors, non-2xx
status and malformed bodies, all of which throw inside the `try` block).
-/

namespace Autobot

/-! ## Data model (`types/index.ts`) -/

/-- `DebugEvent.type`: closed enumeration of event kinds. -/
inductive EventType
  | request
  | response
  | tool_call
  | thought
  | error
deriving DecidableEq, Repr

/-- `DebugEvent.source`: which collaborator produced the event. -/
inductive Source
  | frontend
  | backend
  | llm
deriving DecidableEq, Repr

/-- Role of a display message (`Message.role` in the frontend types). -/
inductive Role
  | user
  | assistant
deriving DecidableEq, Repr

/-- Opaque per-type component properties (`props: Record<string, any>`),
modelled as an association list. -/
abbrev Props := List (String × String)

/-- `usage` object returned by the completion API. -/
structure Usage where
  prompt_tokens : Nat
  completion_tokens : Nat
  total_tokens : Nat
deriving DecidableEq, Repr

/-- A2UI component descriptor (`UIComponent` in `types/index.ts`).
`uuidv4()` string identifiers are modelled as naturals drawn from a fresh
counter; `type` and `props` are copied verbatim from the model's arguments,
so they may be absent (JavaScript `undefined`). -/
structure UIComponent where
  id : Nat
  type : Option String
  props : Option Props
deriving DecidableEq, Repr

/-- The `message` object inside a `response/llm` event's data
(`{content, tool_calls?}`); the reducer reads only `content`, which may be
`null`. -/
structure RespMessage where
  content : Option String
deriving DecidableEq, Repr

/-- A derived display message (`Message` in `types/index.ts`).
`uiComponents` is `none` when the field is absent (user messages are pushed
without it), `some []` when initialised empty (assistant messages). -/
structure Message where
  id : Nat
  role : Role
  content : String
  timestamp : Nat
  uiComponents : Option (List UIComponent) := none
  usage : Option Usage := none
  reasoning : Option String := none
deriving DecidableEq, Repr

/-- The untyped `data: any` payload of an event, restricted to the fields the
core ever reads. Absent fields are `none`. -/
structure EventData where
  content : Option String := none
  message : Option RespMessage := none
  usage : Option Usage := none
  component : Option UIComponent := none
  reasoning : Option String := none
  error : Option String := none
  messages : Option (List Message) := none
  modelName : Option String := none
  toolCalls : Option Nat := none
deriving DecidableEq, Repr

/-- `DebugEvent` from `types/index.ts`. -/
structure DebugEvent where
  id : Nat
  timestamp : Nat
  type : EventType
  source : Source
  data : EventData
  description : String
deriving DecidableEq, Repr

/-- JavaScript truthiness of an optional string field: absent (`undefined`),
`null` and the empty string are all falsy. -/
def strTruthy : Option String → Bool
  | none => false
  | some s => s != ""

/-! ## Event reducer (`App.tsx`, `messages` memo, lines 68–100) -/

/-- One step of the `forEach` body in the `messages` memo: the if/else-if
chain dispatching on `(event.type, event.source)` and the truthiness of the
relevant data field, mutating the accumulated message list. -/
def reduceStep (msgs : List Message) (e : DebugEvent) : List Message :=
  if e.type = EventType.request ∧ e.source = Source.frontend ∧
      strTruthy e.data.content = true then
    msgs ++ [{ id := e.id, role := Role.user, content := e.data.content.getD "",
               timestamp := e.timestamp }]
  else if e.type = EventType.response ∧ e.source = Source.llm ∧
      e.data.message.isSome = true then
    msgs ++ [{ id := e.id, role := Role.assistant,
               content := ((e.data.message.map RespMessage.content).join).getD "",
               timestamp := e.timestamp,
               uiComponents := some [],
               usage := e.data.usage }]
  else if e.type = EventType.tool_call ∧ e.source = Source.llm ∧
      e.data.component.isSome = true then
    match e.data.component with
    | some c =>
      match msgs.getLast? with
      | some lastMsg =>
        if lastMsg.role = Role.assistant then
          msgs.dropLast ++
            [{ lastMsg with uiComponents := some (lastMsg.uiComponents.getD [] ++ [c]) }]
        else msgs
      | none => msgs
    | none => msgs
  else if e.type = EventType.thought ∧ e.source = Source.llm ∧
      strTruthy e.data.reasoning = true then
    match msgs.getLast? with
    | some lastMsg =>
      if lastMsg.role = Role.assistant then
        msgs.dropLast ++ [{ lastMsg with reasoning := e.data.reasoning }]
      else msgs
    | none => msgs
  else msgs

/-- The event reducer: left fold of `reduceStep` over an event-log segment,
starting from the empty message list (`const msgs: Message[] = []`). -/
def reduce (events : List DebugEvent) : List Message :=
  events.foldl reduceStep []

/-- The fold processes events strictly left to right: appending events to a
log extends the fold from the already-reduced state. -/
theorem reduce_append (P Q : List DebugEvent) :
    reduce (P ++ Q) = Q.foldl reduceStep (reduce P) := by
  simp [reduce, List.foldl_append]

/-- Reducing a log with one extra event at the end applies one step to the
reduction of the shorter log. -/
theorem reduce_concat (P : List DebugEvent) (e : DebugEvent) :
    reduce (P ++ [e]) = reduceStep (reduce P) e := by
  simp [reduce_append]

/-! ## App state: event log and time-travel cursor (`App.tsx`) -/

/-- The slice of `App` component state the core depends on: the per-session
event log (`debugEvents`), the time-travel cursor (`historyIndex`, an
integer so that `-1` = "start of session" is representable) and the current
conversation identifier. -/
structure AppState where
  debugEvents : List DebugEvent
  historyIndex : Int
  currentConversationId : String

/-- `currentEvents` memo: `debugEvents.slice(0, historyIndex + 1)`.
The UI keeps `historyIndex ∈ [-1, length-1]`, so the slice end is `≥ 0` and
JavaScript `slice` agrees with `List.take`. -/
def currentEvents (st : AppState) : List DebugEvent :=
  st.debugEvents.take (st.historyIndex + 1).toNat

/-- `messages` memo: the reduction of the cursor-bounded log segment. -/
def messages (st : AppState) : List Message :=
  reduce (currentEvents st)

/-- `setHistoryIndex(i)`: moving the time-travel slider only changes the
cursor. -/
def setHistoryIndex (i : Int) (st : AppState) : AppState :=
  { st with historyIndex := i }

/-! ## Storage (`StorageService`, IndexedDB `conversations` store) -/

/-- A stored conversation record: `{id, events, updatedAt}`. -/
structure StoredConversation where
  id : String
  events : List DebugEvent
  updatedAt : Nat
deriving DecidableEq, Repr

/-- The `conversations` object store, keyed by conversation id. -/
def StorageDB := String → Option StoredConversation

/-- Empty database. -/
def emptyDB : StorageDB := fun _ => none

/-- `StorageService.saveConversation(id, events)`:
`db.put('conversations', { id, events, updatedAt: Date.now() })`. -/
def saveConversation (id : String) (events : List DebugEvent) (now : Nat)
    (db : StorageDB) : StorageDB :=
  fun k => if k = id then some ⟨id, events, now⟩ else db k

/-- `StorageService.getConversation(id)`: returns the stored record's
`events`, or `[]` when the conversation does not exist. -/
def getConversation (id : String) (db : StorageDB) : List DebugEvent :=
  match db id with
  | some conv => conv.events
  | none => []

/-! ## Appending an event (`addDebugEvent` in `App.tsx`, lines 54–62) -/

/-- `addDebugEvent(event)`: `next = [...prev, event]`, the cursor jumps to
`next.length - 1`, and the whole next log is persisted under the current
conversation id. Returns the new app state and the new database. -/
def addDebugEvent (e : DebugEvent) (now : Nat) (st : AppState) (db : StorageDB) :
    AppState × StorageDB :=
  let next := st.debugEvents ++ [e]
  ({ st with debugEvents := next, historyIndex := (next.length : Int) - 1 },
   saveConversation st.currentConversationId next now db)

/-! ## Sending a message (`handleSendMessage` in `App.tsx`, lines 148–166) -/

/-- The `request/frontend` user event built by `handleSendMessage`
(`uuidv4()` and `Date.now()` are passed in explicitly). -/
def mkUserEvent (content : String) (uid ts : Nat) : DebugEvent :=
  { id := uid, timestamp := ts, type := EventType.request,
    source := Source.frontend, data := { content := some content },
    description := "Message utilisateur sauvegardé" }

/-- The event-log portion of `handleSendMessage(content)`:
`baseEvents = debugEvents.slice(0, historyIndex + 1)`;
`nextEvents = [...baseEvents, userEvent]`; both the state and the stored
conversation are replaced by `nextEvents` and the cursor moves to the new
tip. (The subsequent LLM call appends further events through
`addDebugEvent`; it is modelled separately by `chatTurn`.) -/
def handleSendMessage (content : String) (uid ts now : Nat) (st : AppState)
    (db : StorageDB) : AppState × StorageDB :=
  let baseEvents := st.debugEvents.take (st.historyIndex + 1).toNat
  let userEvent := mkUserEvent content uid ts
  let nextEvents := baseEvents ++ [userEvent]
  ({ st with debugEvents := nextEvents,
             historyIndex := (nextEvents.length : Int) - 1 },
   saveConversation st.currentConversationId nextEvents now db)

/-! ## Chat turn and A2UI extraction (`LLMService.chat`) -/

/-- One tool call in a completion result (`toolCall.function`). -/
structure ToolCall where
  name : String
  arguments : String
deriving DecidableEq, Repr

/-- The result of `JSON.parse(toolCall.function.arguments)`, restricted to
the fields the extractor reads (`args.type`, `args.props`) plus an `id`
field the model might supply but the code never reads. Fields absent from
the JSON are `none`. -/
structure A2UIArgs where
  type : Option String := none
  props : Option Props := none
  id : Option String := none
deriving DecidableEq, Repr

/-- `choice.message` of a completion: text content (possibly `null`) and the
tool calls (`[]` when absent). -/
structure CompletionMessage where
  content : Option String := none
  tool_calls : List ToolCall := []
deriving DecidableEq, Repr

/-- A parsed successful completion body (`completion.choices[0]` plus
`usage` and `model`). -/
structure ChatCompletion where
  message : CompletionMessage
  usage : Option Usage := none
  model : String := ""
deriving DecidableEq, Repr

/-- Rendering of an optional string in a template literal: JavaScript prints
`undefined` for an absent value. -/
def optionStr : Option String → String
  | some s => s
  | none => "undefined"

/-- The A2UI extraction loop over `choice.message.tool_calls`
(`LLMService.chat`, lines 99–125). For each tool call named
`render_ui_component`, `JSON.parse` (the `parse` parameter) is attempted:
on success a component `{id: uuidv4(), type: args.type, props: args.props}`
is built and one `tool_call/llm` debug event is pushed; a parse failure is
caught, logged and skipped. Returns the components, the tool-call events
and the advanced uuid counter (`ctr` models the `uuidv4()` supply, two
fresh ids per extracted component: one for the component, one for the
event). -/
def extractLoop (parse : String → Option A2UIArgs) (ts : Nat) :
    Nat → List ToolCall → List UIComponent × List DebugEvent × Nat
  | ctr, [] => ([], [], ctr)
  | ctr, tc :: rest =>
    if tc.name = "render_ui_component" then
      match parse tc.arguments with
      | some args =>
        let component : UIComponent :=
          { id := ctr, type := args.type, props := args.props }
        let ev : DebugEvent :=
          { id := ctr + 1, timestamp := ts, type := EventType.tool_call,
            source := Source.llm,
            data := { component := some component,
                      toolCalls := none },
            description :=
              "LLM rendered " ++ optionStr args.type ++ " component via A2UI" }
        let r := extractLoop parse ts (ctr + 2) rest
        (component :: r.1, ev :: r.2.1, r.2.2)
      | none => extractLoop parse ts ctr rest
    else extractLoop parse ts ctr rest

/-- The `request/backend` event pushed at the start of `chat`. -/
def mkChatRequestEvent (uid ts : Nat) (msgs : List Message) : DebugEvent :=
  { id := uid, timestamp := ts, type := EventType.request,
    source := Source.backend, data := { messages := some msgs },
    description := "Sending request to LLM" }

/-- The `error/llm` event pushed in the `catch` block of `chat`. -/
def mkErrorEvent (uid ts : Nat) (emsg : String) : DebugEvent :=
  { id := uid, timestamp := ts, type := EventType.error, source := Source.llm,
    data := { error := some emsg }, description := "Error: " ++ emsg }

/-- The `response/llm` event pushed after a successful completion. -/
def mkResponseEvent (uid ts : Nat) (completion : ChatCompletion) : DebugEvent :=
  { id := uid, timestamp := ts, type := EventType.response, source := Source.llm,
    data := { usage := completion.usage,
              modelName := some completion.model,
              toolCalls := some completion.message.tool_calls.length },
    description :=
      "LLM responded (" ++
        toString ((completion.usage.map Usage.total_tokens).getD 0) ++
        " tokens, " ++ toString completion.message.tool_calls.length ++
        " UI components)" }

/-- `LLMService.chat(messages)` (part of the repository's backend/frontend
service pair). The remote call is an explicit argument: `Except.ok` with a
parsed body, or `Except.error` for every failure mode of the `try` block
(network error, non-2xx, malformed body). The function returns the debug
events accumulated for the turn and either the assistant `Message` or the
re-raised error. `ctr` is the `uuidv4()` supply, `ts` the `Date.now()`
clock. -/
def chatTurn (parse : String → Option A2UIArgs) (msgs : List Message)
    (ctr ts : Nat) (callResult : Except String ChatCompletion) :
    List DebugEvent × Except String Message :=
  let requestEvent := mkChatRequestEvent ctr ts msgs
  match callResult with
  | Except.error emsg =>
    ([requestEvent, mkErrorEvent (ctr + 1) ts emsg], Except.error emsg)
  | Except.ok completion =>
    let r := extractLoop parse ts (ctr + 1) completion.message.tool_calls
    let uiComponents := r.1
    let toolEvents := r.2.1
    let ctr2 := r.2.2
    let responseEvent := mkResponseEvent ctr2 ts completion
    let responseMessage : Message :=
      { id := ctr2 + 1, role := Role.assistant,
        content := completion.message.content.getD "",
        timestamp := ts,
        uiComponents :=
          if uiComponents.length > 0 then some uiComponents else none }
    (requestEvent :: toolEvents ++ [responseEvent], Except.ok responseMessage)

/-! ## Backend configuration endpoint (`GET /api/config`) -/

/-- The stored configuration (`Config` in `types/index.ts`). -/
structure Config where
  apiEndpoint : String
  apiKey : String
  model : Option String := none
  azureApiVersion : Option String := none
  azureDeployment : Option String := none
deriving DecidableEq, Repr

/-- The JSON body returned by `GET /api/config`. The handler destructures
`const { apiKey, ...safeConfig } = config` and returns
`{...safeConfig, configured: true}` — the response type has no `apiKey`
field at all. When no config is stored it returns `{configured: false}`
(all other fields absent). -/
structure SafeConfigResponse where
  apiEndpoint : Option String := none
  model : Option String := none
  azureApiVersion : Option String := none
  azureDeployment : Option String := none
  configured : Bool
deriving DecidableEq, Repr

/-- The `GET /api/config` handler (`packages/backend/src/index.ts`,
lines 194–208), as a function of the stored configuration. -/
def getConfigHandler (stored : Option Config) : SafeConfigResponse :=
  match stored with
  | some config =>
    { apiEndpoint := some config.apiEndpoint,
      model := config.model,
      azureApiVersion := config.azureApiVersion,
      azureDeployment := config.azureDeployment,
      configured := true }
  | none => { configured := false }

/-! ## Concrete example data (shared by counterexamples and witnesses) -/

/-- A concrete user request event. -/
def exUserEvent : DebugEvent := mkUserEvent "hi" 0 0

/-- A concrete `response/llm` event whose message content is `"hello"`. -/
def exResponseEvent : DebugEvent :=
  { id := 1, timestamp := 1, type := EventType.response, source := Source.llm,
    data := { message := some ⟨some "hello"⟩ }, description := "LLM responded" }

/-- A concrete `thought/llm` event carrying non-empty reasoning. -/
def exThoughtEvent : DebugEvent :=
  { id := 3, timestamp := 3, type := EventType.thought, source := Source.llm,
    data := { reasoning := some "deep" }, description := "LLM thought" }

/-- A concrete A2UI component. -/
def exComponent : UIComponent := { id := 10, type := some "button", props := some [] }

/-- A concrete `tool_call/llm` event carrying `exComponent`. -/
def exToolCallEvent : DebugEvent :=
  { id := 2, timestamp := 2, type := EventType.tool_call, source := Source.llm,
    data := { component := some exComponent }, description := "LLM rendered button component via A2UI" }

/-- A concrete app state whose log has two events with the cursor at the
tip. -/
def exState : AppState :=
  { debugEvents := [exUserEvent, exResponseEvent], historyIndex := 1,
    currentConversationId := "conv-1" }

/-- A concrete app state whose cursor (0) is strictly behind the tip (1). -/
def exStateBehind : AppState :=
  { debugEvents := [exUserEvent, exResponseEvent], historyIndex := 0,
    currentConversationId := "conv-1" }

/-! ## Claim theorems -/

/-- Claim C1: for every event log and cursor value `c ∈ [-1, length-1]`, the
visible conversation is the reduction of the inclusive log segment
`log[0..c]`; no event at an index greater than `c` contributes (replacing
everything beyond index `c` by arbitrary events leaves the view unchanged);
cursor `-1` yields zero DisplayMessages; and viewing any cursor position
does not mutate the underlying log. -/
theorem reduce_respects_cursor (st : AppState) (c : Int) (ext : List DebugEvent)
    (hlo : -1 ≤ c) (hhi : c ≤ (st.debugEvents.length : Int) - 1) :
    messages (setHistoryIndex c st) = reduce (st.debugEvents.take (c + 1).toNat)
    ∧ (setHistoryIndex c st).debugEvents = st.debugEvents
    ∧ messages (setHistoryIndex (-1) st) = []
    ∧ messages (setHistoryIndex c
        { st with debugEvents := st.debugEvents.take (c + 1).toNat ++ ext })
      = messages (setHistoryIndex c st) := by
  refine ⟨rfl, rfl, rfl, ?_⟩
  have hle : (c + 1).toNat ≤ st.debugEvents.length := by omega
  have hlen : (st.debugEvents.take (c + 1).toNat).length = (c + 1).toNat := by
    simp [List.length_take, Nat.min_eq_left hle]
  simp only [messages, currentEvents, setHistoryIndex]
  rw [List.take_left' hlen]

/-- Witness for C1 at a concrete state, cursor `0`, extension
`[exToolCallEvent]`. -/
theorem reduce_respects_cursor_witness :
    (-1 : Int) ≤ 0
    ∧ (0 : Int) ≤ (exState.debugEvents.length : Int) - 1
    ∧ (messages (setHistoryIndex 0 exState)
         = reduce (exState.debugEvents.take ((0 : Int) + 1).toNat)
       ∧ (setHistoryIndex 0 exState).debugEvents = exState.debugEvents
       ∧ messages (setHistoryIndex (-1) exState) = []
       ∧ messages (setHistoryIndex 0
           { exState with
             debugEvents := exState.debugEvents.take ((0 : Int) + 1).toNat
               ++ [exToolCallEvent] })
         = messages (setHistoryIndex 0 exState)) :=
  ⟨by decide, by decide,
   reduce_respects_cursor exState 0 [exToolCallEvent] (by decide) (by decide)⟩

/-- Claim C2: the event reducer is a deterministic pure function — for a
fixed event-log prefix, two runs produce structurally identical output
(same message count, roles, contents, order and attached components), with
no dependence on anything outside the prefix. -/
theorem reduce_deterministic (P Q : List DebugEvent) (h : P = Q) :
    reduce P = reduce Q
    ∧ (reduce P).length = (reduce Q).length
    ∧ (reduce P).map Message.role = (reduce Q).map Message.role
    ∧ (reduce P).map Message.content = (reduce Q).map Message.content
    ∧ (reduce P).map Message.uiComponents = (reduce Q).map Message.uiComponents := by
  subst h
  exact ⟨rfl, rfl, rfl, rfl, rfl⟩

/-- Witness for C2 at a concrete two-event prefix. -/
theorem reduce_deterministic_witness :
    [exUserEvent, exResponseEvent] = [exUserEvent, exResponseEvent]
    ∧ (reduce [exUserEvent, exResponseEvent] = reduce [exUserEvent, exResponseEvent]
       ∧ (reduce [exUserEvent, exResponseEvent]).length
           = (reduce [exUserEvent, exResponseEvent]).length
       ∧ (reduce [exUserEvent, exResponseEvent]).map Message.role
           = (reduce [exUserEvent, exResponseEvent]).map Message.role
       ∧ (reduce [exUserEvent, exResponseEvent]).map Message.content
           = (reduce [exUserEvent, exResponseEvent]).map Message.content
       ∧ (reduce [exUserEvent, exResponseEvent]).map Message.uiComponents
           = (reduce [exUserEvent, exResponseEvent]).map Message.uiComponents) :=
  ⟨rfl, reduce_deterministic [exUserEvent, exResponseEvent] [exUserEvent, exResponseEvent] rfl⟩

/-- Claim C6: after `addDebugEvent(e)` the stored log is exactly the
previous sequence with `e` concatenated at the end (length increased by
exactly 1, all prior events unchanged and in the same order), and the
cursor jumps to the new tip `N-1`, re-entering live mode. -/
theorem append_event_extends_log (e : DebugEvent) (now : Nat) (st : AppState)
    (db : StorageDB) :
    (addDebugEvent e now st db).1.debugEvents = st.debugEvents ++ [e]
    ∧ (addDebugEvent e now st db).1.debugEvents.length = st.debugEvents.length + 1
    ∧ (addDebugEvent e now st db).1.debugEvents.take st.debugEvents.length
        = st.debugEvents
    ∧ (addDebugEvent e now st db).1.historyIndex
        = ((addDebugEvent e now st db).1.debugEvents.length : Int) - 1
    ∧ getConversation st.currentConversationId (addDebugEvent e now st db).2
        = st.debugEvents ++ [e] := by
  refine ⟨rfl, by simp [addDebugEvent], ?_, rfl, ?_⟩
  · show (st.debugEvents ++ [e]).take st.debugEvents.length = st.debugEvents
    exact List.take_left st.debugEvents [e]
  · simp [addDebugEvent, getConversation, saveConversation]

/-- Counterexample to claim C3: with the log `[exUserEvent, exResponseEvent]`
and the cursor at `0` (strictly behind the tip), sending `"again"` stores
the log `[exUserEvent, user "again"]` — the intervening `exResponseEvent`
is discarded both from state and from the persisted conversation, so
`handleSendMessage` does truncate the log. -/
theorem sendMessage_retention_counterexample :
    exStateBehind.debugEvents = [exUserEvent, exResponseEvent]
    ∧ exStateBehind.historyIndex = 0
    ∧ (handleSendMessage "again" 7 10 11 exStateBehind emptyDB).1.debugEvents
        = [exUserEvent, mkUserEvent "again" 7 10]
    ∧ exResponseEvent ∉ (handleSendMessage "again" 7 10 11 exStateBehind emptyDB).1.debugEvents
    ∧ (handleSendMessage "again" 7 10 11 exStateBehind emptyDB).1.debugEvents.length = 2
    ∧ getConversation "conv-1" (handleSendMessage "again" 7 10 11 exStateBehind emptyDB).2
        = [exUserEvent, mkUserEvent "again" 7 10] := by
  decide

/-- Claim C3, amended: sending a new user message while the cursor is
strictly behind the tip follows branch-and-discard semantics — the stored
log becomes `log[0..cursor] ++ [userEvent]` (events after the cursor are
discarded, not retained), the cursor moves to the new tip, the same log is
persisted, and the new length is strictly smaller than the old length plus
one. -/
theorem sendMessage_branch_discard (content : String) (uid ts now : Nat)
    (st : AppState) (db : StorageDB)
    (hlo : -1 ≤ st.historyIndex)
    (hbehind : st.historyIndex < (st.debugEvents.length : Int) - 1) :
    (handleSendMessage content uid ts now st db).1.debugEvents
      = st.debugEvents.take (st.historyIndex + 1).toNat ++ [mkUserEvent content uid ts]
    ∧ (handleSendMessage content uid ts now st db).1.historyIndex
      = ((handleSendMessage content uid ts now st db).1.debugEvents.length : Int) - 1
    ∧ getConversation st.currentConversationId
        (handleSendMessage content uid ts now st db).2
      = (handleSendMessage content uid ts now st db).1.debugEvents
    ∧ (handleSendMessage content uid ts now st db).1.debugEvents.length
        < st.debugEvents.length + 1 := by
  refine ⟨rfl, rfl, ?_, ?_⟩
  · simp [handleSendMessage, getConversation, saveConversation]
  · have h1 : (st.historyIndex + 1).toNat < st.debugEvents.length := by omega
    simp [handleSendMessage, List.length_take, Nat.min_eq_left (Nat.le_of_lt h1)]
    omega

/-- Witness for the amended C3 at a concrete state whose cursor is behind
the tip. -/
theorem sendMessage_branch_discard_witness :
    (-1 : Int) ≤ exStateBehind.historyIndex
    ∧ exStateBehind.historyIndex < (exStateBehind.debugEvents.length : Int) - 1
    ∧ ((handleSendMessage "again" 7 10 11 exStateBehind emptyDB).1.debugEvents
         = exStateBehind.debugEvents.take (exStateBehind.historyIndex + 1).toNat
             ++ [mkUserEvent "again" 7 10]
       ∧ (handleSendMessage "again" 7 10 11 exStateBehind emptyDB).1.historyIndex
         = (((handleSendMessage "again" 7 10 11 exStateBehind emptyDB).1.debugEvents.length : Int)) - 1
       ∧ getConversation exStateBehind.currentConversationId
           (handleSendMessage "again" 7 10 11 exStateBehind emptyDB).2
         = (handleSendMessage "again" 7 10 11 exStateBehind emptyDB).1.debugEvents
       ∧ (handleSendMessage "again" 7 10 11 exStateBehind emptyDB).1.debugEvents.length
           < exStateBehind.debugEvents.length + 1) :=
  ⟨by decide, by decide,
   sendMessage_branch_discard "again" 7 10 11 exStateBehind emptyDB (by decide) (by decide)⟩

/-- Replacing the last element of a non-empty list keeps its length. -/
theorem length_dropLast_concat {α : Type} (l : List α) (x : α) (h : l ≠ []) :
    (l.dropLast ++ [x]).length = l.length := by
  have hpos : 0 < l.length := List.length_pos.mpr h
  simp [List.length_dropLast]
  omega

/-- A list with a last element is non-empty. -/
theorem ne_nil_of_getLast?_eq_some {α : Type} {l : List α} {a : α}
    (h : l.getLast? = some a) : l ≠ [] := by
  intro hnil
  rw [hnil] at h
  simp at h

/-- Claim C4: a `tool_call/llm` event carrying `data.component` appends the
component to the most recently pushed DisplayMessage exactly when that
message has role `assistant` (never touching an earlier message), and
otherwise — in particular when no assistant message has been pushed yet —
leaves the output unchanged: zero new DisplayMessages, no error. The
message count is preserved in every case. -/
theorem toolCall_attaches_to_last_assistant (P : List DebugEvent)
    (uid ts : Nat) (desc : String) (d : EventData) (c : UIComponent)
    (hc : d.component = some c) :
    reduce (P ++ [{ id := uid, timestamp := ts, type := EventType.tool_call,
                    source := Source.llm, data := d, description := desc }])
      = (match (reduce P).getLast? with
         | some lastMsg =>
           if lastMsg.role = Role.assistant then
             (reduce P).dropLast ++
               [{ lastMsg with
                  uiComponents := some (lastMsg.uiComponents.getD [] ++ [c]) }]
           else reduce P
         | none => reduce P)
    ∧ (reduce (P ++ [{ id := uid, timestamp := ts, type := EventType.tool_call,
                       source := Source.llm, data := d, description := desc }])).length
        = (reduce P).length := by
  have hstep :
      reduce (P ++ [{ id := uid, timestamp := ts, type := EventType.tool_call,
                      source := Source.llm, data := d, description := desc }])
        = (match (reduce P).getLast? with
           | some lastMsg =>
             if lastMsg.role = Role.assistant then
               (reduce P).dropLast ++
                 [{ lastMsg with
                    uiComponents := some (lastMsg.uiComponents.getD [] ++ [c]) }]
             else reduce P
           | none => reduce P) := by
    rw [reduce_concat]
    simp [reduceStep, hc]
  refine ⟨hstep, ?_⟩
  rw [hstep]
  cases hlast : (reduce P).getLast? with
  | none => rfl
  | some lastMsg =>
    by_cases hrole : lastMsg.role = Role.assistant
    · simp only [hrole, if_pos rfl]
      exact length_dropLast_concat _ _ (ne_nil_of_getLast?_eq_some hlast)
    · simp [hrole]

/-- Witness for C4 at a concrete prefix ending in an assistant message: the
component lands in the assistant message's `uiComponents` and the count is
unchanged. -/
theorem toolCall_attaches_witness :
    exToolCallEvent.data.component = some exComponent
    ∧ reduce ([exUserEvent, exResponseEvent] ++
        [{ id := 2, timestamp := 2, type := EventType.tool_call,
           source := Source.llm, data := exToolCallEvent.data,
           description := "LLM rendered button component via A2UI" }])
      = [⟨0, Role.user, "hi", 0, none, none, none⟩,
         ⟨1, Role.assistant, "hello", 1, some [exComponent], none, none⟩]
    ∧ (reduce ([exUserEvent, exResponseEvent] ++
        [{ id := 2, timestamp := 2, type := EventType.tool_call,
           source := Source.llm, data := exToolCallEvent.data,
           description := "LLM rendered button component via A2UI" }])).length
        = (reduce [exUserEvent, exResponseEvent]).length :=
  ⟨by decide,
   (toolCall_attaches_to_last_assistant [exUserEvent, exResponseEvent] 2 2
     "LLM rendered button component via A2UI" exToolCallEvent.data exComponent
     (by decide)).1,
   (toolCall_attaches_to_last_assistant [exUserEvent, exResponseEvent] 2 2
     "LLM rendered button component via A2UI" exToolCallEvent.data exComponent
     (by decide)).2⟩

/-- Counterexample to claim C5: in the log
`[exResponseEvent, exUserEvent, exThoughtEvent]` an assistant
DisplayMessage exists in the output (the first message) when the truthy
`thought/llm` event is processed, yet no message receives the reasoning —
the code only attaches reasoning when the *most recently pushed* message is
the assistant one, not whenever some assistant message exists. -/
theorem thought_attach_counterexample :
    exThoughtEvent.type = EventType.thought
    ∧ exThoughtEvent.source = Source.llm
    ∧ exThoughtEvent.data.reasoning = some "deep"
    ∧ strTruthy exThoughtEvent.data.reasoning = true
    ∧ (reduce [exResponseEvent, exUserEvent, exThoughtEvent]).map Message.role
        = [Role.assistant, Role.user]
    ∧ (reduce [exResponseEvent, exUserEvent, exThoughtEvent]).map Message.reasoning
        = [none, none] := by
  decide

/-- Claim C5, amended: a `thought/llm` event carrying truthy
`data.reasoning` attaches the reasoning to the most recently pushed
DisplayMessage exactly when that message has role `assistant`; in every
other case — including when an assistant message exists earlier in the
output but is not the last one — the reasoning is dropped. -/
theorem thought_attaches_to_last_only (P : List DebugEvent)
    (uid ts : Nat) (desc : String) (d : EventData) (r : String)
    (hr : d.reasoning = some r) (hne : r ≠ "") :
    reduce (P ++ [{ id := uid, timestamp := ts, type := EventType.thought,
                    source := Source.llm, data := d, description := desc }])
      = (match (reduce P).getLast? with
         | some lastMsg =>
           if lastMsg.role = Role.assistant then
             (reduce P).dropLast ++ [{ lastMsg with reasoning := some r }]
           else reduce P
         | none => reduce P) := by
  rw [reduce_concat]
  have htr : strTruthy (some r) = true := by
    simp [strTruthy, hne]
  simp [reduceStep, hr, htr]

/-- Witness for the amended C5 at a concrete prefix ending in an assistant
message: the reasoning lands on that assistant message. -/
theorem thought_attaches_witness :
    exThoughtEvent.data.reasoning = some "deep"
    ∧ "deep" ≠ ""
    ∧ reduce ([exUserEvent, exResponseEvent] ++
        [{ id := 3, timestamp := 3, type := EventType.thought,
           source := Source.llm, data := exThoughtEvent.data,
           description := "LLM thought" }])
      = [⟨0, Role.user, "hi", 0, none, none, none⟩,
         ⟨1, Role.assistant, "hello", 1, some [], none, some "deep"⟩] :=
  ⟨by decide, by decide,
   thought_attaches_to_last_only [exUserEvent, exResponseEvent] 3 3
     "LLM thought" exThoughtEvent.data "deep" (by decide) (by decide)⟩

/-- Claim C7: when the external completion call fails, the turn's debug
events are exactly the request event followed by a single `error` event
whose `data.error` is the failure message; no `response` event is appended
for the failed call; and the error is re-raised to the caller. -/
theorem chat_failure_appends_single_error (parse : String → Option A2UIArgs)
    (msgs : List Message) (ctr ts : Nat) (emsg : String) :
    (chatTurn parse msgs ctr ts (Except.error emsg)).1
      = [mkChatRequestEvent ctr ts msgs, mkErrorEvent (ctr + 1) ts emsg]
    ∧ ((chatTurn parse msgs ctr ts (Except.error emsg)).1.filter
        (fun e => e.type == EventType.error)).length = 1
    ∧ (mkErrorEvent (ctr + 1) ts emsg).data.error = some emsg
    ∧ ((chatTurn parse msgs ctr ts (Except.error emsg)).1.filter
        (fun e => e.type == EventType.response)) = []
    ∧ (chatTurn parse msgs ctr ts (Except.error emsg)).2 = Except.error emsg :=
  ⟨rfl, rfl, rfl, rfl, rfl⟩

/-! ### Helper lemmas about the A2UI extraction loop -/

/-- Every debug event produced by the extraction loop is a `tool_call`
event. -/
theorem extractLoop_events_type (parse : String → Option A2UIArgs) (ts : Nat) :
    ∀ (tcs : List ToolCall) (ctr : Nat),
      ∀ ev ∈ (extractLoop parse ts ctr tcs).2.1, ev.type = EventType.tool_call
  | [], _, ev, hev => by simp [extractLoop] at hev
  | tc :: rest, ctr, ev, hev => by
    by_cases h : tc.name = "render_ui_component"
    · rw [extractLoop, if_pos h] at hev
      cases hp : parse tc.arguments with
      | some args =>
        rw [hp] at hev
        simp only [List.mem_cons] at hev
        cases hev with
        | inl heq => rw [heq]
        | inr hmem => exact extractLoop_events_type parse ts rest (ctr + 2) ev hmem
      | none =>
        rw [hp] at hev
        exact extractLoop_events_type parse ts rest ctr ev hev
    · rw [extractLoop, if_neg h] at hev
      exact extractLoop_events_type parse ts rest ctr ev hev

/-- Every component id produced by the extraction loop is at least the
starting counter value. -/
theorem extractLoop_id_lb (parse : String → Option A2UIArgs) (ts : Nat) :
    ∀ (tcs : List ToolCall) (ctr : Nat),
      ∀ c ∈ (extractLoop parse ts ctr tcs).1, ctr ≤ c.id
  | [], _, c, hc => by simp [extractLoop] at hc
  | tc :: rest, ctr, c, hc => by
    by_cases h : tc.name = "render_ui_component"
    · rw [extractLoop, if_pos h] at hc
      cases hp : parse tc.arguments with
      | some args =>
        rw [hp] at hc
        simp only [List.mem_cons] at hc
        cases hc with
        | inl heq => rw [heq]
        | inr hmem =>
          have := extractLoop_id_lb parse ts rest (ctr + 2) c hmem
          omega
      | none =>
        rw [hp] at hc
        exact extractLoop_id_lb parse ts rest ctr c hc
    · rw [extractLoop, if_neg h] at hc
      exact extractLoop_id_lb parse ts rest ctr c hc

/-- The component ids produced by one extraction run are pairwise
distinct. -/
theorem extractLoop_ids_nodup (parse : String → Option A2UIArgs) (ts : Nat) :
    ∀ (tcs : List ToolCall) (ctr : Nat),
      ((extractLoop parse ts ctr tcs).1.map UIComponent.id).Nodup
  | [], _ => by simp [extractLoop]
  | tc :: rest, ctr => by
    by_cases h : tc.name = "render_ui_component"
    · rw [extractLoop, if_pos h]
      cases hp : parse tc.arguments with
      | some args =>
        simp only [List.map_cons, List.nodup_cons, List.mem_map]
        refine ⟨?_, extractLoop_ids_nodup parse ts rest (ctr + 2)⟩
        rintro ⟨c, hc, hid⟩
        have := extractLoop_id_lb parse ts rest (ctr + 2) c hc
        omega
      | none => exact extractLoop_ids_nodup parse ts rest ctr
    · rw [extractLoop, if_neg h]
      exact extractLoop_ids_nodup parse ts rest ctr

/-- Erase the `id` field of parsed A2UI arguments. -/
def stripA2UIId (a : A2UIArgs) : A2UIArgs := { a with id := none }

/-- The extraction loop never reads the model-supplied `id` field of the
parsed arguments: erasing it from every parse result leaves the extraction
output unchanged. -/
theorem extractLoop_ignores_model_id (parse : String → Option A2UIArgs) (ts : Nat) :
    ∀ (tcs : List ToolCall) (ctr : Nat),
      extractLoop (fun s => (parse s).map stripA2UIId) ts ctr tcs
        = extractLoop parse ts ctr tcs
  | [], _ => rfl
  | tc :: rest, ctr => by
    by_cases h : tc.name = "render_ui_component"
    · rw [extractLoop, extractLoop, if_pos h, if_pos h]
      cases hp : parse tc.arguments with
      | some args =>
        simp [hp, stripA2UIId, extractLoop_ignores_model_id parse ts rest (ctr + 2)]
      | none =>
        simp only [hp, Option.map_none']
        exact extractLoop_ignores_model_id parse ts rest ctr
    · rw [extractLoop, extractLoop, if_neg h, if_neg h]
      exact extractLoop_ignores_model_id parse ts rest ctr

/-- A successful `chatTurn` always appends exactly one `response` event. -/
theorem chatTurn_ok_response_count (parse : String → Option A2UIArgs)
    (msgs : List Message) (ctr ts : Nat) (completion : ChatCompletion) :
    ((chatTurn parse msgs ctr ts (Except.ok completion)).1.filter
        (fun e => e.type == EventType.response)).length = 1 := by
  have h1 : List.filter (fun e => e.type == EventType.response)
      (mkChatRequestEvent ctr ts msgs ::
        (extractLoop parse ts (ctr + 1) completion.message.tool_calls).2.1) = [] := by
    apply List.filter_eq_nil_iff.mpr
    intro a ha
    rcases List.mem_cons.mp ha with h | h
    · rw [h]
      simp [mkChatRequestEvent]
    · have hty := extractLoop_events_type parse ts completion.message.tool_calls (ctr + 1) a h
      simp [hty]
  show (List.filter (fun e => e.type == EventType.response)
      ((mkChatRequestEvent ctr ts msgs ::
        (extractLoop parse ts (ctr + 1) completion.message.tool_calls).2.1) ++
        [mkResponseEvent (extractLoop parse ts (ctr + 1) completion.message.tool_calls).2.2
          ts completion])).length = 1
  rw [List.filter_append, h1, List.nil_append]
  rfl

/-- Skipping lemma: a `render_ui_component` tool call whose arguments fail
to parse contributes nothing — extraction over a list containing it equals
extraction over the list with it removed, components, events and counter
alike. -/
theorem extractLoop_skip_malformed (parse : String → Option A2UIArgs) (ts : Nat)
    (bad : ToolCall) (hname : bad.name = "render_ui_component")
    (hparse : parse bad.arguments = none) :
    ∀ (pre post : List ToolCall) (ctr : Nat),
      extractLoop parse ts ctr (pre ++ bad :: post)
        = extractLoop parse ts ctr (pre ++ post)
  | [], post, ctr => by
    simp only [List.nil_append]
    rw [extractLoop, if_pos hname, hparse]
  | tc :: pre, post, ctr => by
    simp only [List.cons_append]
    by_cases h : tc.name = "render_ui_component"
    · rw [extractLoop, extractLoop, if_pos h, if_pos h]
      cases hp : parse tc.arguments with
      | some args =>
        rw [extractLoop_skip_malformed parse ts bad hname hparse pre post (ctr + 2)]
      | none =>
        exact extractLoop_skip_malformed parse ts bad hname hparse pre post ctr
    · rw [extractLoop, extractLoop, if_neg h, if_neg h]
      exact extractLoop_skip_malformed parse ts bad hname hparse pre post ctr

/-- Claim C8: a `render_ui_component` tool call whose arguments string is
not valid JSON fails without aborting the turn: it contributes zero
components and zero tool-call events, the remaining tool calls are
processed in order exactly as if the malformed one were absent, the turn
still succeeds, and the turn's `response` event is still appended. -/
theorem malformed_toolcall_skipped (parse : String → Option A2UIArgs)
    (pre post : List ToolCall) (bad : ToolCall) (msgs : List Message)
    (ctr ts : Nat) (completion : ChatCompletion)
    (hname : bad.name = "render_ui_component")
    (hparse : parse bad.arguments = none)
    (htc : completion.message.tool_calls = pre ++ bad :: post) :
    extractLoop parse ts ctr completion.message.tool_calls
      = extractLoop parse ts ctr (pre ++ post)
    ∧ ((chatTurn parse msgs ctr ts (Except.ok completion)).1.filter
        (fun e => e.type == EventType.response)).length = 1
    ∧ ((chatTurn parse msgs ctr ts (Except.ok completion)).2.toOption).isSome = true := by
  refine ⟨?_, chatTurn_ok_response_count parse msgs ctr ts completion, rfl⟩
  rw [htc]
  exact extractLoop_skip_malformed parse ts bad hname hparse pre post ctr

/-- A concrete model of `JSON.parse` for the witnesses: `"good"` parses to
button arguments carrying a model-supplied id, anything else fails. -/
def exParse : String → Option A2UIArgs := fun s =>
  if s = "good" then
    some { type := some "button", props := some [("label", "Click")], id := some "model-chosen" }
  else none

/-- A concrete completion whose middle tool call has malformed arguments. -/
def exCompletion : ChatCompletion :=
  { message :=
      { content := some "Hello",
        tool_calls :=
          [⟨"render_ui_component", "good"⟩,
           ⟨"render_ui_component", "\x7bnot json"⟩,
           ⟨"render_ui_component", "good"⟩] },
    usage := some ⟨10, 20, 30⟩,
    model := "test-model" }

/-- Witness for C8 with the malformed call `arguments = "\x7bnot json"` in
the middle of two well-formed ones. -/
theorem malformed_toolcall_skipped_witness :
    (ToolCall.mk "render_ui_component" "\x7bnot json").name = "render_ui_component"
    ∧ exParse (ToolCall.mk "render_ui_component" "\x7bnot json").arguments = none
    ∧ exCompletion.message.tool_calls
        = [⟨"render_ui_component", "good"⟩] ++
            ToolCall.mk "render_ui_component" "\x7bnot json" :: [⟨"render_ui_component", "good"⟩]
    ∧ (extractLoop exParse 5 1 exCompletion.message.tool_calls
        = extractLoop exParse 5 1
            ([⟨"render_ui_component", "good"⟩] ++ [⟨"render_ui_component", "good"⟩])
       ∧ ((chatTurn exParse [] 0 5 (Except.ok exCompletion)).1.filter
            (fun e => e.type == EventType.response)).length = 1
       ∧ ((chatTurn exParse [] 0 5 (Except.ok exCompletion)).2.toOption).isSome = true) :=
  ⟨rfl, by decide, rfl,
   malformed_toolcall_skipped exParse
     [⟨"render_ui_component", "good"⟩] [⟨"render_ui_component", "good"⟩]
     (ToolCall.mk "render_ui_component" "\x7bnot json") [] 1 5 exCompletion
     rfl (by decide) rfl⟩

/-- Claim C9: a successfully extracted `render_ui_component` tool call
yields the component `{id := fresh counter value, type := args.type,
props := args.props}`; all component ids produced in one extraction run are
pairwise distinct (fresh and unique); and the model-supplied `id` inside
the arguments is never copied — erasing it from every parse result leaves
the extraction output unchanged. -/
theorem extract_fresh_unique_id (parse : String → Option A2UIArgs)
    (ts ctr : Nat) (tcs : List ToolCall) (tc : ToolCall) (args : A2UIArgs)
    (hname : tc.name = "render_ui_component")
    (hparse : parse tc.arguments = some args) :
    (extractLoop parse ts ctr (tc :: tcs)).1
      = { id := ctr, type := args.type, props := args.props }
          :: (extractLoop parse ts (ctr + 2) tcs).1
    ∧ ((extractLoop parse ts ctr (tc :: tcs)).1.map UIComponent.id).Nodup
    ∧ extractLoop (fun s => (parse s).map stripA2UIId) ts ctr (tc :: tcs)
        = extractLoop parse ts ctr (tc :: tcs) := by
  refine ⟨?_, extractLoop_ids_nodup parse ts (tc :: tcs) ctr,
          extractLoop_ignores_model_id parse ts (tc :: tcs) ctr⟩
  rw [extractLoop, if_pos hname, hparse]

/-- Witness for C9 at a concrete parse function and tool call whose
arguments carry a model-supplied id. -/
theorem extract_fresh_unique_id_witness :
    (ToolCall.mk "render_ui_component" "good").name = "render_ui_component"
    ∧ exParse (ToolCall.mk "render_ui_component" "good").arguments
        = some { type := some "button", props := some [("label", "Click")],
                 id := some "model-chosen" }
    ∧ ((extractLoop exParse 5 0
          (ToolCall.mk "render_ui_component" "good" :: [⟨"render_ui_component", "good"⟩])).1
        = { id := 0, type := some "button", props := some [("label", "Click")] }
            :: (extractLoop exParse 5 2 [⟨"render_ui_component", "good"⟩]).1
       ∧ ((extractLoop exParse 5 0
            (ToolCall.mk "render_ui_component" "good" ::
              [⟨"render_ui_component", "good"⟩])).1.map UIComponent.id).Nodup
       ∧ extractLoop (fun s => (exParse s).map stripA2UIId) 5 0
            (ToolCall.mk "render_ui_component" "good" :: [⟨"render_ui_component", "good"⟩])
          = extractLoop exParse 5 0
              (ToolCall.mk "render_ui_component" "good" :: [⟨"render_ui_component", "good"⟩])) :=
  ⟨rfl, by decide,
   extract_fresh_unique_id exParse 5 0 [⟨"render_ui_component", "good"⟩]
     (ToolCall.mk "render_ui_component" "good")
     { type := some "button", props := some [("label", "Click")], id := some "model-chosen" }
     rfl (by decide)⟩

/-- Claim C10: the configuration read endpoint never reveals the stored API
key — the response type carries no `apiKey` field, any two stored
configurations that differ only in `apiKey` produce the same response, and
blanking the key of a configuration does not change the response. -/
theorem config_get_hides_key (c1 c2 : Config)
    (hend : c1.apiEndpoint = c2.apiEndpoint)
    (hmodel : c1.model = c2.model)
    (hver : c1.azureApiVersion = c2.azureApiVersion)
    (hdep : c1.azureDeployment = c2.azureDeployment) :
    getConfigHandler (some c1) = getConfigHandler (some c2)
    ∧ getConfigHandler (some c1) = getConfigHandler (some { c1 with apiKey := "" }) := by
  constructor
  · simp [getConfigHandler, hend, hmodel, hver, hdep]
  · rfl

/-- A stored configuration with one API key. -/
def exConfigA : Config := { apiEndpoint := "https://api.example", apiKey := "secret-1" }

/-- The same configuration with a different API key. -/
def exConfigB : Config := { apiEndpoint := "https://api.example", apiKey := "secret-2" }

/-- Witness for C10 at two concrete configurations differing only in their
API key. -/
theorem config_get_hides_key_witness :
    exConfigA.apiEndpoint = exConfigB.apiEndpoint
    ∧ exConfigA.model = exConfigB.model
    ∧ exConfigA.azureApiVersion = exConfigB.azureApiVersion
    ∧ exConfigA.azureDeployment = exConfigB.azureDeployment
    ∧ (getConfigHandler (some exConfigA) = getConfigHandler (some exConfigB)
       ∧ getConfigHandler (some exConfigA)
           = getConfigHandler (some { exConfigA with apiKey := "" })) :=
  ⟨rfl, rfl, rfl, rfl, config_get_hides_key exConfigA exConfigB rfl rfl rfl rfl⟩

end Autobot
